import Mathlib

/-!
Shallow embedding of the WinRT video-capture stream sink
(`webrtc/modules/video_capture/windows/video_capture_sink_winrt.cc`,
class `VideoCaptureStreamSinkWinRT`) and proofs checking the natural-language
specification of its lifecycle state machine, sample queue and dispatch loop
against the code.

Modelling conventions:
* `IMFSample` is modelled by an id plus a flag recording whether
  `GetBufferByIndex(0)` succeeds on it; `IMFMediaType` by a record of the
  attributes the sink reads (major-type-is-video, `MF_MT_SUBTYPE`, and a tag
  distinguishing descriptor instances).
* `std::queue<ComPtr<IUnknown>> _sampleQueue` is a `List` with `push` at the
  back and `front`/`pop` at the head.
* `QueueEvent` emissions (`MEStreamSinkStarted`, `MEStreamSinkStopped`,
  `MEStreamSinkPaused`, `MEStreamSinkRequestSample`) and downstream
  deliveries (`_callback->OnSample`) are recorded in one ordered trace.
* `QueueAsyncOperation`/`MFPutWorkItem2` is modelled as appending the tagged
  operation to a list of scheduled work items (submission never fails in the
  model; the `E_OUTOFMEMORY` path is not modelled).
* `ThrowIfError` around a `QueueEvent` that fails because `_isShutdown` is
  set lands in the `catch` of `OnDispatchWorkItem` and then in `HandleError`,
  which does nothing once `_isShutdown` is true; the model therefore simply
  omits the event in that case.  `MEError` is unreachable in the model (the
  only modelled `QueueEvent` failure is the shutdown one) and is omitted.
-/

namespace VideoCaptureSink

/-- Stream sink lifecycle state (`State_TypeNotSet` … `State_Stopped`). -/
inductive State
  | notSet
  | ready
  | started
  | paused
  | stopped
deriving DecidableEq, Repr

/-- The C++ enum ordinal of a state, used by the source in comparisons such
as `_state >= State_Ready`. -/
def State.code : State → Nat
  | .notSet => 0
  | .ready => 1
  | .started => 2
  | .paused => 3
  | .stopped => 4

/-- `StreamOperation` (`OpSetMediaType` … `OpProcessSample`). -/
inductive StreamOperation
  | opSetMediaType
  | opStart
  | opRestart
  | opPause
  | opStop
  | opProcessSample
deriving DecidableEq, Repr

/-- The HRESULT values the sink distinguishes: `S_OK`, `E_INVALIDARG`,
`MF_E_SHUTDOWN`, `MF_E_NOT_INITIALIZED`, `MF_E_INVALIDREQUEST`,
`MF_E_INVALIDTYPE`. -/
inductive HRes
  | ok
  | invalidArg
  | shutdownErr
  | notInitialized
  | invalidRequest
  | invalidType
deriving DecidableEq, Repr

/-- An `IMFMediaType`: whether `MF_MT_MAJOR_TYPE` is `MFMediaType_Video`,
the `MF_MT_SUBTYPE` GUID (as a number), and a tag distinguishing distinct
descriptor instances with equal attributes. -/
structure MediaType where
  majorIsVideo : Bool
  subtype : Nat
  tag : Nat
deriving DecidableEq, Repr

/-- An entry of `_sampleQueue` (a `ComPtr<IUnknown>`): either an `IMFSample`
(`hasBuffer` records whether `GetBufferByIndex(0)` succeeds on it) or an
`IMFMediaType` pushed by `ProcessFormatChange`. -/
inductive QueueItem
  | sample (id : Nat) (hasBuffer : Bool)
  | formatMarker (mt : MediaType)
deriving DecidableEq, Repr

/-- The mutable fields of `VideoCaptureStreamSinkWinRT` the protocol reads
and writes. -/
structure Sink where
  state : State
  isShutdown : Bool
  /-- `_spCurrentType` (`none` = null). -/
  currentType : Option MediaType
  /-- `_guiCurrentSubtype`, zero-initialized by the constructor. -/
  currentSubtype : Nat
  /-- `_sampleQueue`, head = front. -/
  sampleQueue : List QueueItem
  /-- `_startTime`. -/
  startTime : Int
  /-- `_fGetStartTimeFromSample`. -/
  getStartTimeFromSample : Bool
deriving DecidableEq, Repr

/-- The sink as the constructor builds it. -/
def initialSink : Sink :=
  { state := .notSet
    isShutdown := false
    currentType := none
    currentSubtype := 0
    sampleQueue := []
    startTime := 0
    getStartTimeFromSample := false }

/-- A sink with the given state, shutdown flag and queue (other fields as
freshly constructed). -/
def mkSink (st : State) (shut : Bool) (q : List QueueItem) : Sink :=
  { initialSink with state := st, isShutdown := shut, sampleQueue := q }

/-- `ValidStateMatrix`: the class-static states×operations table,
row by row as in the source. -/
def validStateMatrix : State → StreamOperation → Bool
  | .notSet, .opSetMediaType => true
  | .notSet, .opStart => false
  | .notSet, .opRestart => false
  | .notSet, .opPause => false
  | .notSet, .opStop => false
  | .notSet, .opProcessSample => false
  | .ready, .opSetMediaType => true
  | .ready, .opStart => true
  | .ready, .opRestart => false
  | .ready, .opPause => true
  | .ready, .opStop => true
  | .ready, .opProcessSample => false
  | .started, .opSetMediaType => true
  | .started, .opStart => true
  | .started, .opRestart => false
  | .started, .opPause => true
  | .started, .opStop => true
  | .started, .opProcessSample => true
  | .paused, .opSetMediaType => true
  | .paused, .opStart => true
  | .paused, .opRestart => true
  | .paused, .opPause => true
  | .paused, .opStop => true
  | .paused, .opProcessSample => true
  | .stopped, .opSetMediaType => true
  | .stopped, .opStart => true
  | .stopped, .opRestart => false
  | .stopped, .opPause => false
  | .stopped, .opStop => true
  | .stopped, .opProcessSample => false

/-- `ValidateOperation`.  The source also has `assert(!_isShutdown)`, a
debug-build-only check with no effect on the returned value; callers that
reach this after shutdown proceed in release builds. -/
def validateOperation (st : State) (op : StreamOperation) : HRes :=
  if validStateMatrix st op then .ok
  else if st = .notSet then .notInitialized
  else .invalidRequest

/-- One observable step: a downstream delivery (`_callback->OnSample`) or a
lifecycle event queued by `QueueEvent`. -/
inductive TraceEntry
  | onSample (id : Nat)
  | evStarted
  | evStopped
  | evPaused
  | evRequestSample
deriving DecidableEq, Repr

/-- Result of `ProcessSamplesFromQueue`: the returned `fNeedMoreSamples`,
the remaining `_sampleQueue`, the entries popped (in pop order), and the
trace of deliveries and events. -/
structure ProcessResult where
  needMore : Bool
  queue : List QueueItem
  pops : List QueueItem
  trace : List TraceEntry
deriving DecidableEq, Repr

/-- The `while (fSendSamples)` loop of `ProcessSamplesFromQueue`: `item` is
the entry just popped, `queue` the remaining `_sampleQueue`.  Per iteration:
if the item is a sample whose `GetBufferByIndex(0)` fails, `break` (the
function then returns with `fNeedMoreSamples` still false and the remaining
queue untouched); if it is a sample with a buffer, `OnSample` delivers it
(also when flushing — only the `fProcessingSample` flag is guarded by
`!fFlush`); if it is a media type, the `As(IMFSample)` cast fails and the
item is consumed without any action.  Then, under the lock, a
`MEStreamSinkRequestSample` event is queued when the state is Started, a
sample was just processed non-flushing, and the sink is not shut down;
finally the next entry is popped, or the loop ends with
`fNeedMoreSamples = true` when the queue is empty. -/
def processLoop (fFlush : Bool) (st : State) (shut : Bool) :
    QueueItem → List QueueItem → ProcessResult
  | item, queue =>
    let step : List TraceEntry × Bool × Bool :=
      match item with
      | .sample i hasBuf =>
        if hasBuf then ([.onSample i], !fFlush, false) else ([], false, true)
      | .formatMarker _ => ([], false, false)
    if step.2.2 then
      { needMore := false, queue := queue, pops := [item], trace := step.1 }
    else
      let tr := step.1 ++
        (if st = .started ∧ step.2.1 = true ∧ shut = false
          then [.evRequestSample] else [])
      match queue with
      | [] => { needMore := true, queue := [], pops := [item], trace := tr }
      | next :: rest =>
        let r := processLoop fFlush st shut next rest
        { needMore := r.needMore, queue := r.queue, pops := item :: r.pops,
          trace := tr ++ r.trace }

/-- `ProcessSamplesFromQueue`: if the queue is empty, return
`fNeedMoreSamples = true` without processing; else pop the front and run the
loop. -/
def processSamplesFromQueue (fFlush : Bool) (s : Sink) : Sink × ProcessResult :=
  match s.sampleQueue with
  | [] => (s, { needMore := true, queue := [], pops := [], trace := [] })
  | item :: rest =>
    let r := processLoop fFlush s.state s.isShutdown item rest
    ({ s with sampleQueue := r.queue }, r)

/-- `DropSamplesFromQueue`: flush-processes the queue and returns the
constant `true` (the `fNeedMoreSamples` computed by the loop is discarded). -/
def dropSamplesFromQueue (s : Sink) : Bool × Sink × ProcessResult :=
  let r := processSamplesFromQueue true s
  (true, r.1, r.2)

/-- `SendSampleFromQueue`: non-flush processing, propagating
`fNeedMoreSamples`. -/
def sendSampleFromQueue (s : Sink) : Sink × ProcessResult :=
  processSamplesFromQueue false s

/-- Result of executing one dispatched work item. -/
structure DispatchResult where
  sink : Sink
  trace : List TraceEntry
deriving DecidableEq, Repr

/-- `DispatchProcessSample`: one `SendSampleFromQueue` cycle, then one more
`MEStreamSinkRequestSample` when the cycle reported `fNeedMoreSamples`, the
sink is not shut down, and the dispatched operation was `OpProcessSample`. -/
def dispatchProcessSample (op : StreamOperation) (s : Sink) : DispatchResult :=
  let r := sendSampleFromQueue s
  if r.2.needMore = true ∧ s.isShutdown = false ∧ op = .opProcessSample then
    { sink := r.1, trace := r.2.trace ++ [.evRequestSample] }
  else
    { sink := r.1, trace := r.2.trace }

/-- `OnDispatchWorkItem`: the worker resolving a queued operation.  For
`OpStart`/`OpRestart` after shutdown the first `ThrowIfError(QueueEvent …)`
throws and `HandleError` is a no-op, so nothing observable happens; for
`OpStop` the drop runs first and only the `MEStreamSinkStopped` event is
lost after shutdown. -/
def onDispatchWorkItem (op : StreamOperation) (s : Sink) : DispatchResult :=
  match op with
  | .opStart | .opRestart =>
    if s.isShutdown then { sink := s, trace := [] }
    else
      let r := dropSamplesFromQueue s
      -- `fRequestMoreSamples` is the constant true returned by
      -- DropSamplesFromQueue, so the request event is always sent here.
      { sink := r.2.1, trace := [.evStarted] ++ r.2.2.trace ++ [.evRequestSample] }
  | .opStop =>
    let r := dropSamplesFromQueue s
    { sink := r.2.1,
      trace := r.2.2.trace ++ (if s.isShutdown then [] else [.evStopped]) }
  | .opPause =>
    if s.isShutdown then { sink := s, trace := [] }
    else { sink := s, trace := [.evPaused] }
  | .opProcessSample | .opSetMediaType => dispatchProcessSample op s

/-- Result of a public synchronous operation: the returned HRESULT, the
updated sink, and the async work items queued for the dispatcher. -/
structure OpResult where
  hr : HRes
  sink : Sink
  queuedOps : List StreamOperation
deriving DecidableEq, Repr

/-- `ProcessSample` (the public push): null check, shutdown check,
`ValidateOperation(OpProcessSample)`, push onto `_sampleQueue`, and queue
one `OpProcessSample` dispatch unless the state is Paused. -/
def processSample (pSample : Option (Nat × Bool)) (s : Sink) : OpResult :=
  match pSample with
  | none => { hr := .invalidArg, sink := s, queuedOps := [] }
  | some (i, hasBuf) =>
    if s.isShutdown then { hr := .shutdownErr, sink := s, queuedOps := [] }
    else
      let hr := validateOperation s.state .opProcessSample
      if hr = .ok then
        let s1 := { s with sampleQueue := s.sampleQueue ++ [.sample i hasBuf] }
        if s1.state ≠ .paused then
          { hr := .ok, sink := s1, queuedOps := [.opProcessSample] }
        else
          { hr := .ok, sink := s1, queuedOps := [] }
      else { hr := hr, sink := s, queuedOps := [] }

/-- `IsMediaTypeSupported`: null check, shutdown check, the major type must
be video, and once `_spCurrentType` is set the subtype must equal
`_guiCurrentSubtype`.  (`GetGUID(MF_MT_SUBTYPE)` always succeeds in the
model: every modelled media type carries a subtype.) -/
def isMediaTypeSupported (pMediaType : Option MediaType) (s : Sink) : HRes :=
  match pMediaType with
  | none => .invalidArg
  | some mt =>
    if s.isShutdown then .shutdownErr
    else if mt.majorIsVideo = false then .invalidType
    else if s.currentType.isSome = true ∧ mt.subtype ≠ s.currentSubtype then
      .invalidType
    else .ok

/-- `SetCurrentMediaType`: null check, shutdown check,
`ValidateOperation(OpSetMediaType)`, then — once a type was already set
(`_state >= State_Ready`) — `IsMediaTypeSupported`; on success the new type
is copied into `_spCurrentType` and `_guiCurrentSubtype` immediately; from
below Ready the state becomes Ready, and from above Ready
`ProcessFormatChange` pushes a copy of the type onto `_sampleQueue` and
queues an `OpSetMediaType` dispatch. -/
def setCurrentMediaType (pMediaType : Option MediaType) (s : Sink) : OpResult :=
  match pMediaType with
  | none => { hr := .invalidArg, sink := s, queuedOps := [] }
  | some mt =>
    if s.isShutdown then { hr := .shutdownErr, sink := s, queuedOps := [] }
    else
      let hrV := validateOperation s.state .opSetMediaType
      if hrV ≠ .ok then { hr := hrV, sink := s, queuedOps := [] }
      else if s.state.code ≥ State.ready.code ∧
          isMediaTypeSupported (some mt) s ≠ .ok then
        { hr := isMediaTypeSupported (some mt) s, sink := s, queuedOps := [] }
      else
        let s1 := { s with currentType := some mt, currentSubtype := mt.subtype }
        if s.state.code < State.ready.code then
          { hr := .ok, sink := { s1 with state := .ready }, queuedOps := [] }
        else if s.state.code > State.ready.code then
          { hr := .ok,
            sink := { s1 with sampleQueue := s1.sampleQueue ++ [.formatMarker mt] },
            queuedOps := [.opSetMediaType] }
        else { hr := .ok, sink := s1, queuedOps := [] }

/-- The `PRESENTATION_CURRENT_POSITION` sentinel start time. -/
def currentPositionSentinel : Int := -1

/-- `Start(MFTIME start)`.  The source takes the lock and calls
`ValidateOperation` directly: there is no `_isShutdown` check on this path
(only the debug assert inside `ValidateOperation`). -/
def start (startOf : Int) (s : Sink) : OpResult :=
  let hr := validateOperation s.state .opStart
  if hr = .ok then
    let s1 :=
      if startOf ≠ currentPositionSentinel then
        { s with startTime := startOf, getStartTimeFromSample := false }
      else
        { s with getStartTimeFromSample := true }
    { hr := .ok, sink := { s1 with state := .started }, queuedOps := [.opStart] }
  else { hr := hr, sink := s, queuedOps := [] }

/-- `Stop()`: validate, set `_state = State_Stopped`, queue `OpStop`.  No
`_isShutdown` check on this path either. -/
def stop (s : Sink) : OpResult :=
  let hr := validateOperation s.state .opStop
  if hr = .ok then
    { hr := .ok, sink := { s with state := .stopped }, queuedOps := [.opStop] }
  else { hr := hr, sink := s, queuedOps := [] }

/-- `Pause()`: validate, set `_state = State_Paused`, queue `OpPause`. -/
def pause (s : Sink) : OpResult :=
  let hr := validateOperation s.state .opPause
  if hr = .ok then
    { hr := .ok, sink := { s with state := .paused }, queuedOps := [.opPause] }
  else { hr := hr, sink := s, queuedOps := [] }

/-- `Restart()`: validate, set `_state = State_Started`, queue `OpRestart`. -/
def restart (s : Sink) : OpResult :=
  let hr := validateOperation s.state .opRestart
  if hr = .ok then
    { hr := .ok, sink := { s with state := .started }, queuedOps := [.opRestart] }
  else { hr := hr, sink := s, queuedOps := [] }

/-- `Flush()` (public): shutdown check, then `DropSamplesFromQueue`. -/
def flush (s : Sink) : HRes × Sink × ProcessResult :=
  if s.isShutdown then
    (.shutdownErr, s, { needMore := true, queue := s.sampleQueue, pops := [],
                        trace := [] })
  else
    let r := dropSamplesFromQueue s
    (.ok, r.2.1, r.2.2)

/-- `Shutdown()`: on the first call, drains `_sampleQueue` (by bare `pop`,
no delivery), releases `_spCurrentType`, and sets `_isShutdown`; the state
field itself is left as it was.  Always returns `S_OK`. -/
def shutdownSink (s : Sink) : Sink :=
  if s.isShutdown then s
  else { s with sampleQueue := [], currentType := none, isShutdown := true }

/-- Ids delivered downstream (`OnSample` calls), in order. -/
def deliveredIds (tr : List TraceEntry) : List Nat :=
  tr.filterMap fun e =>
    match e with
    | .onSample i => some i
    | _ => none

/-- Number of `MEStreamSinkRequestSample` events in a trace. -/
def requestCount (tr : List TraceEntry) : Nat :=
  (tr.filter fun e => e = .evRequestSample).length

/-- Whether processing the item cannot hit the `GetBufferByIndex` failure
path: true for samples with a buffer and for format markers. -/
def bufferedItem : QueueItem → Bool
  | .sample _ hasBuf => hasBuf
  | .formatMarker _ => true

/-- The trace a non-flush drain in Started state produces for the given
sample ids: each delivery immediately followed by a request event. -/
def deliverReqTrace : List Nat → List TraceEntry
  | [] => []
  | j :: rest => .onSample j :: .evRequestSample :: deliverReqTrace rest

/-- The §4.1 state×operation table, transcribed row by row from the words of
the spec (for comparison with `validStateMatrix`, which is transcribed from
the source). -/
def specValidTable : State → StreamOperation → Bool
  | .notSet, .opSetMediaType => true
  | .notSet, .opStart => false
  | .notSet, .opRestart => false
  | .notSet, .opPause => false
  | .notSet, .opStop => false
  | .notSet, .opProcessSample => false
  | .ready, .opSetMediaType => true
  | .ready, .opStart => true
  | .ready, .opRestart => false
  | .ready, .opPause => true
  | .ready, .opStop => true
  | .ready, .opProcessSample => false
  | .started, .opSetMediaType => true
  | .started, .opStart => true
  | .started, .opRestart => false
  | .started, .opPause => true
  | .started, .opStop => true
  | .started, .opProcessSample => true
  | .paused, _ => true
  | .stopped, .opSetMediaType => true
  | .stopped, .opStart => true
  | .stopped, .opRestart => false
  | .stopped, .opPause => false
  | .stopped, .opStop => true
  | .stopped, .opProcessSample => false

/-- `OpSetMediaType` is valid from every state. -/
theorem validateOperation_setType (st : State) :
    validateOperation st .opSetMediaType = .ok := by
  cases st <;> rfl

/-- Non-flush drain of a queue of buffered samples in Started state, no
shutdown: every sample is delivered in order, one request event follows each
delivery, and the loop ends with the queue empty and `fNeedMoreSamples`
true. -/
theorem processLoop_started_buffered (i : Nat) (ids : List Nat) :
    processLoop false .started false (.sample i true)
        (ids.map fun j => .sample j true) =
      { needMore := true, queue := [],
        pops := (i :: ids).map fun j => .sample j true,
        trace := deliverReqTrace (i :: ids) } := by
  induction ids generalizing i with
  | nil => simp [processLoop, deliverReqTrace]
  | cons j rest ih => simp [processLoop, deliverReqTrace, ih]

/-- A drain that can never hit the buffer-failure `break` pops the whole
queue, in order, and reports `fNeedMoreSamples`. -/
theorem processLoop_all_buffered (fl : Bool) (st : State) (item : QueueItem)
    (q : List QueueItem) (h : ∀ x ∈ item :: q, bufferedItem x = true) :
    (processLoop fl st false item q).pops = item :: q
    ∧ (processLoop fl st false item q).queue = []
    ∧ (processLoop fl st false item q).needMore = true := by
  induction q generalizing item with
  | nil =>
    cases item with
    | sample i hb =>
      have hb1 : hb = true := by
        simpa [bufferedItem] using h (QueueItem.sample i hb) (by simp)
      subst hb1
      simp [processLoop]
    | formatMarker f => simp [processLoop]
  | cons next rest ih =>
    have hnext : ∀ x ∈ next :: rest, bufferedItem x = true := by
      intro x hx
      exact h x (by simpa using Or.inr hx)
    have hrec := ih next hnext
    cases item with
    | sample i hb =>
      have hb1 : hb = true := by
        simpa [bufferedItem] using h (QueueItem.sample i hb) (by simp)
      subst hb1
      simp [processLoop, hrec.1, hrec.2.1, hrec.2.2]
    | formatMarker f => simp [processLoop, hrec.1, hrec.2.1, hrec.2.2]

/-- Request events in an appended trace add up. -/
theorem requestCount_append (a b : List TraceEntry) :
    requestCount (a ++ b) = requestCount a + requestCount b := by
  simp [requestCount, List.filter_append]

/-- `deliverReqTrace` holds exactly one request event per id. -/
theorem requestCount_deliverReqTrace (l : List Nat) :
    requestCount (deliverReqTrace l) = l.length := by
  induction l with
  | nil => rfl
  | cons j rest ih => simp [deliverReqTrace, requestCount] at ih ⊢; omega

/-- `deliverReqTrace` delivers exactly the given ids, in order. -/
theorem deliveredIds_deliverReqTrace (l : List Nat) :
    deliveredIds (deliverReqTrace l) = l := by
  induction l with
  | nil => rfl
  | cons j rest ih => simp [deliverReqTrace, deliveredIds] at ih ⊢; exact ih

/-- C1: for every state and operation, `ValidateOperation` returns Ok
exactly when the §4.1 table marks the pair valid, returns the
not-initialized error when the pair is invalid and the state is NotSet, and
returns the invalid-request error for every other invalid pair. -/
theorem c1_validateOperation_matches_spec_table :
    ∀ st op,
      validateOperation st op =
        (if specValidTable st op then HRes.ok
         else if st = State.notSet then HRes.notInitialized
         else HRes.invalidRequest) := by
  intro st op
  cases st <;> cases op <;> rfl

/-- C2 counterexample: a single ProcessSample dispatch cycle on a Started
sink with two buffered samples queued delivers both samples and leaves the
queue empty, yet emits three RequestSample events (one after each delivery
plus one more at the end), not exactly one. -/
theorem c2_counterexample_three_requests :
    deliveredIds (onDispatchWorkItem .opProcessSample
        (mkSink .started false [.sample 1 true, .sample 2 true])).trace = [1, 2]
    ∧ (onDispatchWorkItem .opProcessSample
        (mkSink .started false [.sample 1 true, .sample 2 true])).sink.sampleQueue = []
    ∧ (onDispatchWorkItem .opProcessSample
        (mkSink .started false [.sample 1 true, .sample 2 true])).sink.state = .started
    ∧ requestCount (onDispatchWorkItem .opProcessSample
        (mkSink .started false [.sample 1 true, .sample 2 true])).trace = 3 := by
  decide

/-- C2 amended: a ProcessSample dispatch cycle on a Started, non-shutdown
sink whose queue holds k ≥ 1 buffered samples delivers all k in order,
empties the queue, and emits k + 1 RequestSample events: one immediately
after each delivered sample and one more when the cycle ends with the queue
empty. -/
theorem c2_requests_per_delivery (i : Nat) (ids : List Nat) :
    onDispatchWorkItem .opProcessSample
        (mkSink .started false ((i :: ids).map fun j => .sample j true)) =
      { sink := mkSink .started false [],
        trace := deliverReqTrace (i :: ids) ++ [.evRequestSample] }
    ∧ requestCount (deliverReqTrace (i :: ids) ++ [.evRequestSample]) =
        (i :: ids).length + 1
    ∧ deliveredIds (deliverReqTrace (i :: ids) ++ [.evRequestSample]) = i :: ids := by
  refine ⟨?_, ?_, ?_⟩
  · simp [onDispatchWorkItem, dispatchProcessSample, sendSampleFromQueue,
      processSamplesFromQueue, mkSink, initialSink, processLoop_started_buffered]
  · rw [requestCount_append, requestCount_deliverReqTrace]
    rfl
  · simp [deliveredIds] at *
    simpa [deliveredIds] using deliveredIds_deliverReqTrace (i :: ids)

/-- C3: with sample P1 pushed, a format change F queued, and sample P2
pushed, in that order, a dispatch cycle consumes the queue in exactly the
submission order P1, F, P2 — the marker is consumed after the delivery of P1
and before the delivery of P2, never after P2 — and, in general, a cycle
over a queue free of buffer failures pops every queued item in submission
order. -/
theorem c3_format_change_in_order (i1 i2 : Nat) (f : MediaType)
    (q : List QueueItem) (hq : ∀ x ∈ q, bufferedItem x = true) :
    (processSamplesFromQueue false (mkSink .started false
        [.sample i1 true, .formatMarker f, .sample i2 true])).2.pops =
      [.sample i1 true, .formatMarker f, .sample i2 true]
    ∧ deliveredIds (processSamplesFromQueue false (mkSink .started false
        [.sample i1 true, .formatMarker f, .sample i2 true])).2.trace = [i1, i2]
    ∧ (processSamplesFromQueue false (mkSink .started false q)).2.pops = q := by
  refine ⟨?_, ?_, ?_⟩
  · simp [processSamplesFromQueue, processLoop, mkSink, initialSink]
  · simp [processSamplesFromQueue, processLoop, mkSink, initialSink, deliveredIds]
  · cases q with
    | nil => rfl
    | cons item rest =>
      simpa [processSamplesFromQueue, mkSink, initialSink] using
        (processLoop_all_buffered false .started item rest hq).1

/-- C3 witness at a concrete queue. -/
theorem c3_witness :
    (processSamplesFromQueue false (mkSink .started false
        [.sample 3 true, .formatMarker ⟨true, 1, 0⟩, .sample 4 true])).2.pops =
      [.sample 3 true, .formatMarker ⟨true, 1, 0⟩, .sample 4 true]
    ∧ deliveredIds (processSamplesFromQueue false (mkSink .started false
        [.sample 3 true, .formatMarker ⟨true, 1, 0⟩, .sample 4 true])).2.trace = [3, 4]
    ∧ (processSamplesFromQueue false (mkSink .started false
        [.sample 8 true])).2.pops = [.sample 8 true] :=
  c3_format_change_in_order 3 4 ⟨true, 1, 0⟩ [.sample 8 true] (by decide)

/-- C4 (code bug): the drop path used by Stop and Start/Restart-after-Pause
does empty the queue, but it delivers every buffered sample downstream via
`OnSample` — `ProcessSamplesFromQueue` calls the callback regardless of
`fFlush` — contradicting the drop/discard behaviour its own name and the
comments on `Flush` and `DropSamplesFromQueue` describe: with one queued
sample, `Flush` delivers it. -/
theorem c4_flush_delivers_sample :
    (flush (mkSink .started false [.sample 7 true])).1 = .ok
    ∧ (flush (mkSink .started false [.sample 7 true])).2.1.sampleQueue = []
    ∧ (flush (mkSink .started false [.sample 7 true])).2.2.trace = [.onSample 7]
    ∧ deliveredIds (flush (mkSink .started false
        [.sample 7 true])).2.2.trace ≠ [] := by
  decide

/-- C5 counterexample: a successful SetFormat while Started does enqueue a
FormatChangeMarker, but it also replaces the current descriptor immediately:
right after the call — before any dispatch runs — the current type is
already the new descriptor, refuting that the marker is queued instead of an
immediate application. -/
theorem c5_counterexample_applies_immediately :
    (setCurrentMediaType (some ⟨true, 5, 1⟩)
        { mkSink .started false [] with
          currentType := some ⟨true, 5, 0⟩, currentSubtype := 5 }).hr = .ok
    ∧ (setCurrentMediaType (some ⟨true, 5, 1⟩)
        { mkSink .started false [] with
          currentType := some ⟨true, 5, 0⟩, currentSubtype := 5 }).sink.state = .started
    ∧ (setCurrentMediaType (some ⟨true, 5, 1⟩)
        { mkSink .started false [] with
          currentType := some ⟨true, 5, 0⟩, currentSubtype := 5 }).sink.sampleQueue =
        [.formatMarker ⟨true, 5, 1⟩]
    ∧ (setCurrentMediaType (some ⟨true, 5, 1⟩)
        { mkSink .started false [] with
          currentType := some ⟨true, 5, 0⟩, currentSubtype := 5 }).sink.currentType =
        some ⟨true, 5, 1⟩
    ∧ (some (⟨true, 5, 1⟩ : MediaType) ≠ some (⟨true, 5, 0⟩ : MediaType)) := by
  decide

/-- C5 amended: the first successful SetFormat from NotSet transitions the
sink to Ready; a successful SetFormat while the state is beyond Ready leaves
the state unchanged and enqueues a FormatChangeMarker into the sample queue
while also applying the new descriptor (current type and subtype) to the
sink immediately. -/
theorem c5_setFormat_transitions (s : Sink) (mt : MediaType)
    (hshut : s.isShutdown = false) :
    (s.state = .notSet →
      setCurrentMediaType (some mt) s =
        { hr := .ok,
          sink := { s with
            currentType := some mt, currentSubtype := mt.subtype,
            state := .ready },
          queuedOps := [] })
    ∧ (State.ready.code < s.state.code →
        isMediaTypeSupported (some mt) s = .ok →
        setCurrentMediaType (some mt) s =
          { hr := .ok,
            sink := { s with
              currentType := some mt, currentSubtype := mt.subtype,
              sampleQueue := s.sampleQueue ++ [.formatMarker mt] },
            queuedOps := [.opSetMediaType] }) := by
  constructor
  · intro hst
    simp [setCurrentMediaType, validateOperation, validStateMatrix, hshut, hst,
      State.code]
  · intro hgt hsupp
    have hnlt : ¬ s.state.code < State.ready.code := by omega
    have hge : State.ready.code ≤ s.state.code := by omega
    simp [setCurrentMediaType, validateOperation_setType, hshut, hsupp, hnlt,
      hgt, hge]

/-- C5 witness: both branches at concrete sinks. -/
theorem c5_witness :
    setCurrentMediaType (some ⟨true, 3, 0⟩) (mkSink .notSet false []) =
      { hr := .ok,
        sink := { mkSink .notSet false [] with
          currentType := some ⟨true, 3, 0⟩,
          currentSubtype := 3, state := .ready },
        queuedOps := [] }
    ∧ setCurrentMediaType (some ⟨true, 0, 1⟩) (mkSink .started false []) =
      { hr := .ok,
        sink := { mkSink .started false [] with
          currentType := some ⟨true, 0, 1⟩,
          currentSubtype := 0,
          sampleQueue := [.formatMarker ⟨true, 0, 1⟩] },
        queuedOps := [.opSetMediaType] } :=
  ⟨(c5_setFormat_transitions (mkSink .notSet false []) ⟨true, 3, 0⟩ rfl).1 rfl,
   by
    have h := (c5_setFormat_transitions (mkSink .started false [])
      ⟨true, 0, 1⟩ rfl).2 (by decide) (by decide)
    simpa using h⟩

/-- C6 (code bug): Stop from Started with one queued sample does reach
Stopped, leaves the queue empty and emits the Stopped event, but its OpStop
dispatch delivers the buffered sample downstream (the drop path calls
`OnSample` on every queued sample) instead of discarding it undelivered. -/
theorem c6_stop_delivers_then_stopped :
    (stop (mkSink .started false [.sample 9 true])).hr = .ok
    ∧ (stop (mkSink .started false [.sample 9 true])).sink.state = .stopped
    ∧ (stop (mkSink .started false [.sample 9 true])).queuedOps = [.opStop]
    ∧ (onDispatchWorkItem .opStop
        (stop (mkSink .started false [.sample 9 true])).sink).trace =
        [.onSample 9, .evStopped]
    ∧ (onDispatchWorkItem .opStop
        (stop (mkSink .started false [.sample 9 true])).sink).sink.sampleQueue = [] := by
  decide

/-- C7: ProcessSample on a non-shutdown sink in Started appends the sample
to the queue and schedules exactly one ProcessSample dispatch; in Paused it
appends the sample and schedules no dispatch, leaving the sample buffered. -/
theorem c7_processSample_started_vs_paused (s : Sink) (i : Nat) (hb : Bool)
    (hshut : s.isShutdown = false) :
    (s.state = .started →
      processSample (some (i, hb)) s =
        { hr := .ok,
          sink := { s with sampleQueue := s.sampleQueue ++ [.sample i hb] },
          queuedOps := [.opProcessSample] })
    ∧ (s.state = .paused →
      processSample (some (i, hb)) s =
        { hr := .ok,
          sink := { s with sampleQueue := s.sampleQueue ++ [.sample i hb] },
          queuedOps := [] }) := by
  constructor <;> intro hst <;>
    simp [processSample, validateOperation, validStateMatrix, hshut, hst]

/-- C7 witness: both branches at concrete sinks. -/
theorem c7_witness :
    processSample (some (5, true)) (mkSink .started false []) =
      { hr := .ok, sink := mkSink .started false [.sample 5 true],
        queuedOps := [.opProcessSample] }
    ∧ processSample (some (6, true)) (mkSink .paused false []) =
      { hr := .ok, sink := mkSink .paused false [.sample 6 true],
        queuedOps := [] } :=
  ⟨by
    simpa using
      (c7_processSample_started_vs_paused (mkSink .started false []) 5 true rfl).1 rfl,
   by
    simpa using
      (c7_processSample_started_vs_paused (mkSink .paused false []) 6 true rfl).2 rfl⟩

/-- C8 counterexample: Stop rejected by validation (state NotSet) does not
transition to Stopped and schedules no OpStop (hence no Stopped event),
refuting that Stop always transitions to Stopped and always emits Stopped. -/
theorem c8_counterexample_rejected_stop :
    stop (mkSink .notSet false []) =
      { hr := .notInitialized, sink := mkSink .notSet false [], queuedOps := [] } := by
  decide

/-- C8 amended: every public operation rejected by its argument, shutdown or
validation checks returns with the sink (state, queue and descriptor)
unchanged and schedules no work — Stop included; the Stop exception holds
only for accepted Stops: an accepted Stop always reaches Stopped and
schedules the OpStop dispatch, whose execution emits the Stopped event
whenever the sink is not shut down, regardless of how the discard step
fared. -/
theorem c8_rejected_ops_frame (s : Sink) (m : Option MediaType)
    (p : Option (Nat × Bool)) (t : Int) :
    ((setCurrentMediaType m s).hr ≠ .ok →
      (setCurrentMediaType m s).sink = s ∧ (setCurrentMediaType m s).queuedOps = [])
    ∧ ((processSample p s).hr ≠ .ok →
      (processSample p s).sink = s ∧ (processSample p s).queuedOps = [])
    ∧ ((start t s).hr ≠ .ok →
      (start t s).sink = s ∧ (start t s).queuedOps = [])
    ∧ ((restart s).hr ≠ .ok →
      (restart s).sink = s ∧ (restart s).queuedOps = [])
    ∧ ((pause s).hr ≠ .ok →
      (pause s).sink = s ∧ (pause s).queuedOps = [])
    ∧ ((stop s).hr ≠ .ok →
      (stop s).sink = s ∧ (stop s).queuedOps = [])
    ∧ ((stop s).hr = .ok →
      (stop s).sink.state = .stopped ∧ (stop s).queuedOps = [.opStop])
    ∧ (s.isShutdown = false →
      TraceEntry.evStopped ∈ (onDispatchWorkItem .opStop s).trace) := by
  refine ⟨?_, ?_, ?_, ?_, ?_, ?_, ?_, ?_⟩
  · intro h
    cases m with
    | none => simp [setCurrentMediaType]
    | some mt =>
      by_cases hsh : s.isShutdown
      · simp [setCurrentMediaType, hsh]
      · by_cases hsupp : s.state.code ≥ State.ready.code ∧
          isMediaTypeSupported (some mt) s ≠ .ok
        · simp [setCurrentMediaType, hsh, validateOperation_setType, hsupp]
        · exfalso
          apply h
          by_cases hlt : s.state.code < State.ready.code <;>
            by_cases hgt : s.state.code > State.ready.code <;>
              simp [setCurrentMediaType, hsh, validateOperation_setType, hsupp,
                hlt, hgt]
  · intro h
    cases p with
    | none => simp [processSample]
    | some pr =>
      by_cases hsh : s.isShutdown
      · simp [processSample, hsh]
      · cases hst : s.state <;>
          simp [processSample, validateOperation, validStateMatrix, hsh, hst] at h ⊢
  · intro h
    by_cases hv : validateOperation s.state .opStart = .ok
    · exact absurd (by simp [start, hv]) h
    · simp [start, hv]
  · intro h
    by_cases hv : validateOperation s.state .opRestart = .ok
    · exact absurd (by simp [restart, hv]) h
    · simp [restart, hv]
  · intro h
    by_cases hv : validateOperation s.state .opPause = .ok
    · exact absurd (by simp [pause, hv]) h
    · simp [pause, hv]
  · intro h
    by_cases hv : validateOperation s.state .opStop = .ok
    · exact absurd (by simp [stop, hv]) h
    · simp [stop, hv]
  · intro h
    by_cases hv : validateOperation s.state .opStop = .ok
    · simp [stop, hv]
    · simp [stop, hv] at h
  · intro h
    simp [onDispatchWorkItem, dropSamplesFromQueue, h]

/-- C8 witness: a rejected Stop leaves the sink unchanged, and an OpStop
dispatch on a live sink emits the Stopped event. -/
theorem c8_witness :
    (stop (mkSink .notSet false [])).sink = mkSink .notSet false []
    ∧ TraceEntry.evStopped ∈
        (onDispatchWorkItem .opStop (mkSink .notSet false [])).trace :=
  ⟨((c8_rejected_ops_frame (mkSink .notSet false []) none none 0).2.2.2.2.2.1
      (by decide)).1,
   (c8_rejected_ops_frame (mkSink .notSet false []) none none 0).2.2.2.2.2.2.2 rfl⟩

/-- C9 (code bug): the shutdown flag is indeed written once to true and
never reset, but Start (like Stop, Pause and Restart) performs no shutdown
check — the only guard is a debug-build assert inside `ValidateOperation` —
so Start invoked after Shutdown on a sink that was Started returns Ok,
mutates the start-time fields and schedules an OpStart work item instead of
failing with the Shutdown error. -/
theorem c9_start_after_shutdown_not_rejected :
    (shutdownSink (mkSink .started false [.sample 1 true])).isShutdown = true
    ∧ start 5 (shutdownSink (mkSink .started false [.sample 1 true])) =
        { hr := .ok,
          sink := { mkSink .started true [] with startTime := 5 },
          queuedOps := [.opStart] }
    ∧ (start 5 (shutdownSink (mkSink .started false [.sample 1 true]))).hr ≠
        .shutdownErr := by
  decide

/-- C10: once a descriptor is set (state at least Ready, current type
present), a media type whose subtype differs from the current subtype is
rejected with the invalid-type error by IsMediaTypeSupported, and
SetCurrentMediaType returns that error with the sink unchanged and no
format change queued — the queued format-change path can never change the
subtype. -/
theorem c10_subtype_locked (s : Sink) (mt : MediaType)
    (hshut : s.isShutdown = false) (hcur : s.currentType.isSome = true)
    (hst : State.ready.code ≤ s.state.code)
    (hsub : mt.subtype ≠ s.currentSubtype) :
    isMediaTypeSupported (some mt) s = .invalidType
    ∧ (setCurrentMediaType (some mt) s).hr = .invalidType
    ∧ (setCurrentMediaType (some mt) s).sink = s
    ∧ (setCurrentMediaType (some mt) s).queuedOps = [] := by
  have hsupp : isMediaTypeSupported (some mt) s = .invalidType := by
    by_cases hv : mt.majorIsVideo = false <;>
      simp [isMediaTypeSupported, hshut, hv, hcur, hsub]
  have hcond : s.state.code ≥ State.ready.code ∧
      isMediaTypeSupported (some mt) s ≠ .ok := ⟨hst, by simp [hsupp]⟩
  refine ⟨hsupp, ?_, ?_, ?_⟩ <;>
    simp [setCurrentMediaType, hshut, validateOperation_setType, hcond, hsupp]

/-- C10 witness at a concrete sink with subtype 5 set and subtype 6
offered. -/
theorem c10_witness :
    isMediaTypeSupported (some ⟨true, 6, 1⟩)
        { mkSink .started false [] with
          currentType := some ⟨true, 5, 0⟩, currentSubtype := 5 } = .invalidType
    ∧ (setCurrentMediaType (some ⟨true, 6, 1⟩)
        { mkSink .started false [] with
          currentType := some ⟨true, 5, 0⟩, currentSubtype := 5 }).sink =
      { mkSink .started false [] with
        currentType := some ⟨true, 5, 0⟩, currentSubtype := 5 } :=
  ⟨(c10_subtype_locked
      { mkSink .started false [] with
        currentType := some ⟨true, 5, 0⟩, currentSubtype := 5 }
      ⟨true, 6, 1⟩ rfl rfl (by decide) (by decide)).1,
   (c10_subtype_locked
      { mkSink .started false [] with
        currentType := some ⟨true, 5, 0⟩, currentSubtype := 5 }
      ⟨true, 6, 1⟩ rfl rfl (by decide) (by decide)).2.2.1⟩

end VideoCaptureSink
